import Mathlib

/-!
Shallow embedding of the spend-policy engine of the BaseAccountDemo
repository: the Period Spend Tracker (`spendLimitService.ts`), the
Permission Request Ledger (`permissionApprovalService.ts`) and the
Auto-Spend Arbiter (`autoSpendService.ts`).

Modelling conventions:
* USD amounts and timestamps are `Int` (the TypeScript values are JS
  numbers; every claim under study compares, adds and subtracts them,
  which `Int` models faithfully for the integral values involved).
* `Date.now()` / `new Date().toDateString()` become explicit `now`,
  `today`, `firstDayOfMonth` parameters (injected clock).
* Methods that mutate `this` become functions from state to state
  (paired with their returned value where the method returns one).
* Human-readable reason / error strings become closed inductive types
  whose constructors record which message the source builds, together
  with the numeric data interpolated into it.
* `localStorage` persistence (`saveConfig` / `saveTracking` /
  `saveRequests`) is write-through of the very state the functions
  return, so it needs no separate model.
-/

namespace SpendLimit

/-- `SpendLimitConfig` of `spendLimitService.ts`. -/
structure SpendLimitConfig where
  dailyLimit : Int
  monthlyLimit : Int
  requiresApproval : Bool
  approvalThreshold : Int
  autoResetDaily : Bool
  autoResetMonthly : Bool
  deriving DecidableEq

/-- One window of `SpendTracking` (`daily` / `monthly`): accumulated
amount, limit snapshot and the window-identifier string. -/
structure WindowTracking where
  amount : Int
  limit : Int
  resetDate : String
  deriving DecidableEq

/-- `lastTransaction` of `SpendTracking`. -/
structure LastTransaction where
  amount : Int
  timestamp : Int
  subAccountId : Option String
  deriving DecidableEq

/-- `SpendTracking` of `spendLimitService.ts`. -/
structure SpendTracking where
  daily : WindowTracking
  monthly : WindowTracking
  totalTransactions : Int
  lastTransaction : Option LastTransaction
  deriving DecidableEq

/-- `getDefaultConfig` of `SpendLimitService`. -/
def getDefaultConfig : SpendLimitConfig :=
  { dailyLimit := 20
    monthlyLimit := 500
    requiresApproval := true
    approvalThreshold := 10
    autoResetDaily := true
    autoResetMonthly := true }

/-- `getDefaultTracking` of `SpendLimitService`; `today` and
`firstDayOfMonth` are the injected calendar identifiers. -/
def getDefaultTracking (config : SpendLimitConfig) (today firstDayOfMonth : String) :
    SpendTracking :=
  { daily := { amount := 0, limit := config.dailyLimit, resetDate := today }
    monthly := { amount := 0, limit := config.monthlyLimit, resetDate := firstDayOfMonth }
    totalTransactions := 0
    lastTransaction := none }

/-- `validateTracking` of `SpendLimitService`: zero a window whose
stored `resetDate` differs from the current window identifier.  In the
source this runs only from `loadTracking`, i.e. when the service
instance is constructed. -/
def validateTracking (config : SpendLimitConfig) (today firstDayOfMonth : String)
    (tracking : SpendTracking) : SpendTracking :=
  let tracking1 :=
    if tracking.daily.resetDate ≠ today then
      { tracking with
        daily := { amount := 0, limit := config.dailyLimit, resetDate := today } }
    else tracking
  if tracking1.monthly.resetDate ≠ firstDayOfMonth then
    { tracking1 with
      monthly := { amount := 0, limit := config.monthlyLimit, resetDate := firstDayOfMonth } }
  else tracking1

/-- The reason string a denial of `SpendLimitService.canSpend` carries,
with the numeric value interpolated into the message. -/
inductive SpendDenyReason where
  | dailyLimitExceeded (remaining : Int)
  | monthlyLimitExceeded (remaining : Int)
  | approvalRequired (threshold : Int)
  deriving DecidableEq

/-- Return type of `SpendLimitService.canSpend`. -/
structure CanSpendResult where
  allowed : Bool
  reason : Option SpendDenyReason
  dailyRemaining : Int
  monthlyRemaining : Int
  deriving DecidableEq

/-- `SpendLimitService.canSpend`: three checks in source order (daily
limit, monthly limit, approval threshold) over the in-memory tracking
state. -/
def canSpend (config : SpendLimitConfig) (tracking : SpendTracking) (amount : Int) :
    CanSpendResult :=
  let dailyRemaining := tracking.daily.limit - tracking.daily.amount
  let monthlyRemaining := tracking.monthly.limit - tracking.monthly.amount
  if dailyRemaining < amount then
    { allowed := false
      reason := some (SpendDenyReason.dailyLimitExceeded dailyRemaining)
      dailyRemaining := dailyRemaining
      monthlyRemaining := monthlyRemaining }
  else if monthlyRemaining < amount then
    { allowed := false
      reason := some (SpendDenyReason.monthlyLimitExceeded monthlyRemaining)
      dailyRemaining := dailyRemaining
      monthlyRemaining := monthlyRemaining }
  else if config.requiresApproval ∧ config.approvalThreshold < amount then
    { allowed := false
      reason := some (SpendDenyReason.approvalRequired config.approvalThreshold)
      dailyRemaining := dailyRemaining
      monthlyRemaining := monthlyRemaining }
  else
    { allowed := true
      reason := none
      dailyRemaining := dailyRemaining
      monthlyRemaining := monthlyRemaining }

/-- The mutable fields of a `SpendLimitService` instance. -/
structure SpendLimitState where
  config : SpendLimitConfig
  tracking : SpendTracking
  deriving DecidableEq

/-- `SpendLimitService.recordSpend`: unconditional increments and a
`lastTransaction` stamp; `now` is the injected `Date.now()`. -/
def recordSpend (st : SpendLimitState) (amount : Int) (now : Int)
    (subAccountId : Option String) : SpendLimitState :=
  { st with
    tracking :=
      { st.tracking with
        daily := { st.tracking.daily with amount := st.tracking.daily.amount + amount }
        monthly := { st.tracking.monthly with amount := st.tracking.monthly.amount + amount }
        totalTransactions := st.tracking.totalTransactions + 1
        lastTransaction :=
          some { amount := amount, timestamp := now, subAccountId := subAccountId } } }

/-- `SpendLimitService.getTracking`: returns a copy of the tracking
state and leaves the instance unchanged (the second component is the
untouched post-call state). -/
def getTracking (st : SpendLimitState) : SpendTracking × SpendLimitState :=
  (st.tracking, st)

/-- Calendar-day identifier used by the window-rollover scenario. -/
def exampleToday : String := "Thu Jan 02 2025"

/-- First-of-month identifier used by the window-rollover scenario. -/
def exampleFirstOfMonth : String := "Wed Jan 01 2025"

/-- A tracking state whose daily window is one day stale (its
`resetDate` is yesterday relative to `exampleToday`) and carries an
accumulated `dailyAmount` of 15. -/
def staleTracking : SpendTracking :=
  { daily := { amount := 15, limit := 20, resetDate := "Wed Jan 01 2025" }
    monthly := { amount := 15, limit := 500, resetDate := "Wed Jan 01 2025" }
    totalTransactions := 3
    lastTransaction := none }

end SpendLimit

namespace PermissionLedger

/-- ASCII lower-casing of a string, modelling the behaviour of JS
`String.prototype.toLowerCase()` on the hexadecimal addresses this
service compares. -/
def toLower (s : String) : String :=
  ⟨s.data.map Char.toLower⟩

/-- The `status` field of a `PermissionRequest`. -/
inductive RequestStatus where
  | pending
  | approved
  | rejected
  | expired
  deriving DecidableEq

/-- `PermissionRequest` of `permissionApprovalService.ts`. -/
structure PermissionRequest where
  id : String
  subAccountId : String
  amount : Int
  recipientAddress : String
  purpose : String
  requestedAt : Int
  status : RequestStatus
  approvedAt : Option Int
  rejectedAt : Option Int
  approvedBy : Option String
  rejectionReason : Option String
  expiresAt : Int
  deriving DecidableEq

/-- `PermissionApprovalConfig` of `permissionApprovalService.ts`. -/
structure PermissionApprovalConfig where
  autoApproveThreshold : Int
  maxPendingRequests : Nat
  requestExpiryHours : Int
  requireApprovalForSubAccounts : Bool
  allowedRecipients : List String
  blockedRecipients : List String
  deriving DecidableEq

/-- `getDefaultConfig` of `PermissionApprovalService`. -/
def getDefaultApprovalConfig : PermissionApprovalConfig :=
  { autoApproveThreshold := 5
    maxPendingRequests := 10
    requestExpiryHours := 24
    requireApprovalForSubAccounts := true
    allowedRecipients := []
    blockedRecipients := [] }

/-- `PermissionApprovalService.getPendingRequests`: the requests that
are `pending` and not yet expired at `now`. -/
def getPendingRequests (requests : List PermissionRequest) (now : Int) :
    List PermissionRequest :=
  requests.filter fun req => decide (req.status = RequestStatus.pending ∧ now < req.expiresAt)

/-- `PermissionApprovalService.getRequestById`: first request with the
given id (`Array.prototype.find`). -/
def getRequestById (requests : List PermissionRequest) (id : String) :
    Option PermissionRequest :=
  requests.find? fun req => req.id == id

/-- In-place mutation of the request object returned by
`getRequestById`: rewrite the first element satisfying `p` with `f`,
leaving the rest of the array untouched. -/
def updateFirst {α : Type} (p : α → Bool) (f : α → α) : List α → List α
  | [] => []
  | x :: xs => if p x then f x :: xs else x :: updateFirst p f xs

/-- The error string a failed `requestPermission` carries. -/
inductive RequestError where
  | recipientBlocked
  | recipientNotAllowed
  | tooManyPendingRequests
  deriving DecidableEq

/-- Return type of `PermissionApprovalService.requestPermission`. -/
structure RequestPermissionResult where
  success : Bool
  requestId : Option String
  autoApproved : Option Bool
  error : Option RequestError
  deriving DecidableEq

/-- `PermissionApprovalService.requestPermission`: block-list check,
allow-list check, pending-count check, then creation of a request that
is immediately `approved` when `amount ≤ autoApproveThreshold`, else
`pending`.  `now` models `Date.now()` and `newId` the generated random
id; the second component is the post-call request array. -/
def requestPermission (config : PermissionApprovalConfig)
    (requests : List PermissionRequest) (subAccountId : String) (amount : Int)
    (recipientAddress : String) (purpose : String) (now : Int) (newId : String) :
    RequestPermissionResult × List PermissionRequest :=
  if config.blockedRecipients.contains (toLower recipientAddress) then
    ({ success := false, requestId := none, autoApproved := none
       error := some RequestError.recipientBlocked }, requests)
  else if 0 < config.allowedRecipients.length ∧
      ¬ config.allowedRecipients.contains (toLower recipientAddress) then
    ({ success := false, requestId := none, autoApproved := none
       error := some RequestError.recipientNotAllowed }, requests)
  else if config.maxPendingRequests ≤ (getPendingRequests requests now).length then
    ({ success := false, requestId := none, autoApproved := none
       error := some RequestError.tooManyPendingRequests }, requests)
  else
    let autoApproved := decide (amount ≤ config.autoApproveThreshold)
    let request : PermissionRequest :=
      { id := newId
        subAccountId := subAccountId
        amount := amount
        recipientAddress := recipientAddress
        purpose := purpose
        requestedAt := now
        status := if autoApproved then RequestStatus.approved else RequestStatus.pending
        approvedAt := if autoApproved then some now else none
        rejectedAt := none
        approvedBy := if autoApproved then some "system" else none
        rejectionReason := none
        expiresAt := now + config.requestExpiryHours * 60 * 60 * 1000 }
    ({ success := true, requestId := some newId, autoApproved := some autoApproved
       error := none }, requests ++ [request])

/-- The error string a failed `approveRequest` / `rejectRequest`
carries. -/
inductive DecisionError where
  | requestNotFound
  | requestNotPending
  | requestHasExpired
  deriving DecidableEq

/-- Return type of `approveRequest` and `rejectRequest`. -/
structure DecisionResult where
  success : Bool
  error : Option DecisionError
  deriving DecidableEq

/-- `PermissionApprovalService.approveRequest`: not-found check,
non-pending check, then the expiry check that flips the request to
`expired`; otherwise a terminal `approved` stamp.  The second component
is the post-call request array. -/
def approveRequest (requests : List PermissionRequest) (requestId : String)
    (approvedBy : String) (now : Int) : DecisionResult × List PermissionRequest :=
  match getRequestById requests requestId with
  | none => ({ success := false, error := some DecisionError.requestNotFound }, requests)
  | some request =>
    if request.status ≠ RequestStatus.pending then
      ({ success := false, error := some DecisionError.requestNotPending }, requests)
    else if request.expiresAt ≤ now then
      ({ success := false, error := some DecisionError.requestHasExpired },
       updateFirst (fun req => req.id == requestId)
         (fun req => { req with status := RequestStatus.expired }) requests)
    else
      ({ success := true, error := none },
       updateFirst (fun req => req.id == requestId)
         (fun req =>
           { req with
             status := RequestStatus.approved
             approvedAt := some now
             approvedBy := some approvedBy }) requests)

/-- `PermissionApprovalService.rejectRequest`: not-found check,
non-pending check, then a terminal `rejected` stamp — there is no
expiry check.  The rejector's identity is written into the `approvedBy`
field, as in the source.  The second component is the post-call request
array. -/
def rejectRequest (requests : List PermissionRequest) (requestId : String)
    (rejectedBy : String) (reason : String) (now : Int) :
    DecisionResult × List PermissionRequest :=
  match getRequestById requests requestId with
  | none => ({ success := false, error := some DecisionError.requestNotFound }, requests)
  | some request =>
    if request.status ≠ RequestStatus.pending then
      ({ success := false, error := some DecisionError.requestNotPending }, requests)
    else
      ({ success := true, error := none },
       updateFirst (fun req => req.id == requestId)
         (fun req =>
           { req with
             status := RequestStatus.rejected
             rejectedAt := some now
             approvedBy := some rejectedBy
             rejectionReason := some reason }) requests)

/-- The reason string a denial of the Ledger's `canSpend` carries. -/
inductive LedgerDenyReason where
  | requestPendingApproval
  | approvalRequiredForAmount
  deriving DecidableEq

/-- Return type of the Ledger's `canSpend`. -/
structure LedgerCanSpendResult where
  allowed : Bool
  reason : Option LedgerDenyReason
  requiresApproval : Bool
  pendingRequestId : Option String
  deriving DecidableEq

/-- `PermissionApprovalService.canSpend`: immediate allow at or below
the auto-approve threshold, then search for a matching approved
unexpired request, then for a matching pending unexpired request, then
the `requireApprovalForSubAccounts` policy default. -/
def ledgerCanSpend (config : PermissionApprovalConfig)
    (requests : List PermissionRequest) (subAccountId : String) (amount : Int)
    (recipientAddress : String) (now : Int) : LedgerCanSpendResult :=
  if amount ≤ config.autoApproveThreshold then
    { allowed := true, reason := none, requiresApproval := false, pendingRequestId := none }
  else
    match requests.find? (fun req => decide
        (req.subAccountId = subAccountId ∧ req.amount = amount ∧
         toLower req.recipientAddress = toLower recipientAddress ∧
         req.status = RequestStatus.approved ∧ now < req.expiresAt)) with
    | some _ =>
      { allowed := true, reason := none, requiresApproval := false, pendingRequestId := none }
    | none =>
      match requests.find? (fun req => decide
          (req.subAccountId = subAccountId ∧ req.amount = amount ∧
           toLower req.recipientAddress = toLower recipientAddress ∧
           req.status = RequestStatus.pending ∧ now < req.expiresAt)) with
      | some pendingRequest =>
        { allowed := false
          reason := some LedgerDenyReason.requestPendingApproval
          requiresApproval := true
          pendingRequestId := some pendingRequest.id }
      | none =>
        if config.requireApprovalForSubAccounts then
          { allowed := false
            reason := some LedgerDenyReason.approvalRequiredForAmount
            requiresApproval := true
            pendingRequestId := none }
        else
          { allowed := true, reason := none, requiresApproval := false
            pendingRequestId := none }

/-- The status-transition relation of the request lifecycle: a status
may stay put, and `pending` may additionally move to any of the three
terminal statuses. -/
def statusTransitionOKb (old new : RequestStatus) : Bool :=
  old == new ||
    (old == RequestStatus.pending &&
      (new == RequestStatus.approved || new == RequestStatus.rejected ||
       new == RequestStatus.expired))

/-- Lifecycle conformance of one ledger step, on the status lists
before and after: statuses already present evolve along
`statusTransitionOKb` position by position, no request is deleted, and
every freshly appended request starts in `pending` or `approved`. -/
def evolutionOKb : List RequestStatus → List RequestStatus → Bool
  | [], news =>
    news.all fun s => s == RequestStatus.pending || s == RequestStatus.approved
  | _ :: _, [] => false
  | old :: olds, new :: news => statusTransitionOKb old new && evolutionOKb olds news

/-- The per-request step of `cleanupExpiredRequests`: flip a `pending`
request whose `expiresAt` has passed to `expired`, leave every other
request unchanged. -/
def expireIfDue (now : Int) (req : PermissionRequest) : PermissionRequest :=
  if req.status = RequestStatus.pending ∧ req.expiresAt ≤ now then
    { req with status := RequestStatus.expired }
  else req

/-- `PermissionApprovalService.cleanupExpiredRequests`: map
`expireIfDue` over the whole request array. -/
def cleanupExpiredRequests (requests : List PermissionRequest) (now : Int) :
    List PermissionRequest :=
  requests.map (expireIfDue now)

/-- The block-list configuration of Scenario B: a single entry written
with upper-case letters. -/
def blockedUpperConfig : PermissionApprovalConfig :=
  { getDefaultApprovalConfig with blockedRecipients := ["0xBAD"] }

/-- A `pending` request whose `expiresAt` (10) lies in the past of the
scenario's `now` (20). -/
def pendingExpiredRequest : PermissionRequest :=
  { id := "req1"
    subAccountId := "sub1"
    amount := 8
    recipientAddress := "0xabc"
    purpose := "gift"
    requestedAt := 0
    status := RequestStatus.pending
    approvedAt := none
    rejectedAt := none
    approvedBy := none
    rejectionReason := none
    expiresAt := 10 }

/-- A `pending` request due for cleanup: `expiresAt` (30) lies in the
past of the cleanup scenario's `now` (40). -/
def duePendingRequest : PermissionRequest :=
  { id := "req2"
    subAccountId := "sub2"
    amount := 12
    recipientAddress := "0xdef"
    purpose := "subscription"
    requestedAt := 5
    status := RequestStatus.pending
    approvedAt := none
    rejectedAt := none
    approvedBy := none
    rejectionReason := none
    expiresAt := 30 }

/-- A `pending` request already past its `expiresAt` (50) at the
rejection scenario's `now` (60). -/
def overduePendingRequest : PermissionRequest :=
  { id := "req3"
    subAccountId := "sub3"
    amount := 9
    recipientAddress := "0x123"
    purpose := "donation"
    requestedAt := 2
    status := RequestStatus.pending
    approvedAt := none
    rejectedAt := none
    approvedBy := none
    rejectionReason := none
    expiresAt := 50 }

end PermissionLedger

namespace AutoSpend

/-- The `SubAccount` record read by the Arbiter.  Its interface lives in
`SubAccountContext` (not part of the policy sources); the fields are the
ones the spec lists for the external sub-account entity and the ones
`canAutoSpend` reads. -/
structure SubAccount where
  address : String
  name : String
  isActive : Bool
  dailySpendLimit : Int
  totalSpentToday : Int
  deriving DecidableEq

/-- `AutoSpendConfig` of `autoSpendService.ts`. -/
structure AutoSpendConfig where
  enabled : Bool
  subAccountId : String
  maxAmount : Int
  requiresApproval : Bool
  approvalThreshold : Int
  deriving DecidableEq

/-- `AutoSpendService.canAutoSpend`: the four gates in source order.
The service's `config` field is `null` until one is stored, hence the
`Option`; `!this.config?.enabled` is false exactly when the config
exists and is enabled. -/
def canAutoSpend (config : Option AutoSpendConfig) (amount : Int)
    (subAccount : SubAccount) : Bool :=
  match config with
  | none => false
  | some cfg =>
    if ¬ cfg.enabled ∨ ¬ subAccount.isActive then false
    else
      let remainingToday := subAccount.dailySpendLimit - subAccount.totalSpentToday
      if remainingToday < amount then false
      else if cfg.requiresApproval ∧ cfg.approvalThreshold < amount then false
      else if cfg.maxAmount < amount then false
      else true

/-- An enabled auto-spend configuration with a generous global ceiling,
used by Scenario D. -/
def scenarioConfig : AutoSpendConfig :=
  { enabled := true
    subAccountId := "sub1"
    maxAmount := 100
    requiresApproval := false
    approvalThreshold := 10 }

/-- The sub-account of Scenario D: daily cap 20 with 18 already spent
today, so only 2 of headroom remain. -/
def scenarioSubAccount : SubAccount :=
  { address := "0xsub"
    name := "tips"
    isActive := true
    dailySpendLimit := 20
    totalSpentToday := 18 }

end AutoSpend

namespace SpendLimit

/-- Claim C1 is false on the code: with a daily window one day stale and
`dailyAmount = 15`, `canSpend 6` computes `dailyRemaining` from the
stale amount (20 − 15 = 5) and denies, instead of resetting the window
to 0 first (which would report `dailyRemaining = 20` and allow, as the
claim requires); only an explicit `validateTracking` pass — which the
source invokes solely when tracking is loaded — produces the reset
behaviour. -/
theorem canSpend_stale_window_counterexample :
    staleTracking.daily.resetDate ≠ exampleToday ∧
    (canSpend getDefaultConfig staleTracking 6).dailyRemaining = 5 ∧
    (canSpend getDefaultConfig staleTracking 6).allowed = false ∧
    (canSpend getDefaultConfig
      (validateTracking getDefaultConfig exampleToday exampleFirstOfMonth staleTracking)
      6).dailyRemaining = 20 ∧
    (canSpend getDefaultConfig
      (validateTracking getDefaultConfig exampleToday exampleFirstOfMonth staleTracking)
      6).allowed = true := by
  decide

/-- Claim C1 (amended): staleness is corrected only by
`validateTracking`, which the source runs when tracking is loaded at
service construction — a stale daily (resp. monthly) window is then
zeroed with its `resetDate` set to the current identifier — while
`canSpend` computes `dailyRemaining` / `monthlyRemaining` from the
in-memory tracking state as it stands, performing no reset of its
own. -/
theorem validateTracking_resets_stale_windows (config : SpendLimitConfig)
    (today firstDayOfMonth : String) (tracking : SpendTracking) (amount : Int) :
    (tracking.daily.resetDate ≠ today →
      (validateTracking config today firstDayOfMonth tracking).daily =
        { amount := 0, limit := config.dailyLimit, resetDate := today }) ∧
    (tracking.monthly.resetDate ≠ firstDayOfMonth →
      (validateTracking config today firstDayOfMonth tracking).monthly =
        { amount := 0, limit := config.monthlyLimit, resetDate := firstDayOfMonth }) ∧
    (canSpend config tracking amount).dailyRemaining =
      tracking.daily.limit - tracking.daily.amount ∧
    (canSpend config tracking amount).monthlyRemaining =
      tracking.monthly.limit - tracking.monthly.amount := by
  refine ⟨?_, ?_, ?_, ?_⟩
  · intro h
    simp only [validateTracking]
    rw [if_pos h]
    split <;> rfl
  · intro h
    by_cases hd : tracking.daily.resetDate = today <;>
      simp [validateTracking, hd, h]
  · simp only [canSpend]
    split_ifs <;> rfl
  · simp only [canSpend]
    split_ifs <;> rfl

/-- Claim C1 witness: on the concrete stale tracking state the daily
window is zeroed by `validateTracking` at the current-day identifier,
and likewise a stale monthly window at a later first-of-month
identifier. -/
theorem validateTracking_resets_stale_windows_witness :
    (validateTracking getDefaultConfig exampleToday exampleFirstOfMonth
      staleTracking).daily =
        { amount := 0, limit := 20, resetDate := exampleToday } ∧
    (validateTracking getDefaultConfig "Sun Feb 02 2025" "Sat Feb 01 2025"
      staleTracking).monthly =
        { amount := 0, limit := 500, resetDate := "Sat Feb 01 2025" } := by
  exact ⟨(validateTracking_resets_stale_windows getDefaultConfig exampleToday
      exampleFirstOfMonth staleTracking 0).1 (by decide),
    (validateTracking_resets_stale_windows getDefaultConfig "Sun Feb 02 2025"
      "Sat Feb 01 2025" staleTracking 0).2.1 (by decide)⟩

/-- Claim C3: `canSpend` evaluates its three denial conditions in fixed
order — the daily-limit check first, then the monthly-limit check, then
the approval-threshold check — and otherwise allows; and in Scenario A
(daily 20, monthly 500, threshold 10, `requiresApproval` true, zero
spent) `canSpend 15` is denied with the approval reason, not a limit
reason, and reports `dailyRemaining = 20`. -/
theorem canSpend_check_order (config : SpendLimitConfig) (tracking : SpendTracking)
    (amount : Int) :
    (tracking.daily.limit - tracking.daily.amount < amount →
      canSpend config tracking amount =
        { allowed := false
          reason := some (SpendDenyReason.dailyLimitExceeded
            (tracking.daily.limit - tracking.daily.amount))
          dailyRemaining := tracking.daily.limit - tracking.daily.amount
          monthlyRemaining := tracking.monthly.limit - tracking.monthly.amount }) ∧
    (¬ tracking.daily.limit - tracking.daily.amount < amount →
      tracking.monthly.limit - tracking.monthly.amount < amount →
      canSpend config tracking amount =
        { allowed := false
          reason := some (SpendDenyReason.monthlyLimitExceeded
            (tracking.monthly.limit - tracking.monthly.amount))
          dailyRemaining := tracking.daily.limit - tracking.daily.amount
          monthlyRemaining := tracking.monthly.limit - tracking.monthly.amount }) ∧
    (¬ tracking.daily.limit - tracking.daily.amount < amount →
      ¬ tracking.monthly.limit - tracking.monthly.amount < amount →
      (config.requiresApproval ∧ config.approvalThreshold < amount) →
      canSpend config tracking amount =
        { allowed := false
          reason := some (SpendDenyReason.approvalRequired config.approvalThreshold)
          dailyRemaining := tracking.daily.limit - tracking.daily.amount
          monthlyRemaining := tracking.monthly.limit - tracking.monthly.amount }) ∧
    (¬ tracking.daily.limit - tracking.daily.amount < amount →
      ¬ tracking.monthly.limit - tracking.monthly.amount < amount →
      ¬ (config.requiresApproval ∧ config.approvalThreshold < amount) →
      canSpend config tracking amount =
        { allowed := true
          reason := none
          dailyRemaining := tracking.daily.limit - tracking.daily.amount
          monthlyRemaining := tracking.monthly.limit - tracking.monthly.amount }) ∧
    canSpend getDefaultConfig
        (getDefaultTracking getDefaultConfig exampleToday exampleFirstOfMonth) 15 =
      { allowed := false
        reason := some (SpendDenyReason.approvalRequired 10)
        dailyRemaining := 20
        monthlyRemaining := 500 } := by
  refine ⟨?_, ?_, ?_, ?_, by decide⟩
  · intro h1
    simp only [canSpend]
    rw [if_pos h1]
  · intro h1 h2
    simp only [canSpend]
    rw [if_neg h1, if_pos h2]
  · intro h1 h2 h3
    simp only [canSpend]
    rw [if_neg h1, if_neg h2, if_pos h3]
  · intro h1 h2 h3
    simp only [canSpend]
    rw [if_neg h1, if_neg h2, if_neg h3]

/-- Claim C3 witness: each of the four ordered branches realised on a
concrete input — the daily denial at 25, the monthly denial at 50 under
a raised daily limit, the approval denial at 15, and the allowance at
5, all against the zero-spent default tracking state. -/
theorem canSpend_check_order_witness :
    canSpend getDefaultConfig
        (getDefaultTracking getDefaultConfig exampleToday exampleFirstOfMonth) 25 =
      { allowed := false
        reason := some (SpendDenyReason.dailyLimitExceeded 20)
        dailyRemaining := 20
        monthlyRemaining := 500 } ∧
    canSpend { getDefaultConfig with dailyLimit := 600 }
        (getDefaultTracking { getDefaultConfig with dailyLimit := 600 }
          exampleToday exampleFirstOfMonth) 550 =
      { allowed := false
        reason := some (SpendDenyReason.monthlyLimitExceeded 500)
        dailyRemaining := 600
        monthlyRemaining := 500 } ∧
    canSpend getDefaultConfig
        (getDefaultTracking getDefaultConfig exampleToday exampleFirstOfMonth) 15 =
      { allowed := false
        reason := some (SpendDenyReason.approvalRequired 10)
        dailyRemaining := 20
        monthlyRemaining := 500 } ∧
    canSpend getDefaultConfig
        (getDefaultTracking getDefaultConfig exampleToday exampleFirstOfMonth) 5 =
      { allowed := true
        reason := none
        dailyRemaining := 20
        monthlyRemaining := 500 } := by
  refine ⟨(canSpend_check_order _ _ 25).1 (by decide),
    (canSpend_check_order _ _ 550).2.1 (by decide) (by decide),
    (canSpend_check_order _ _ 15).2.2.1 (by decide) (by decide) (by decide),
    (canSpend_check_order _ _ 5).2.2.2.1 (by decide) (by decide) (by decide)⟩

/-- Claim C7: `recordSpend` unconditionally adds `amount` to both the
daily and the monthly accumulator, adds 1 to `totalTransactions` and
stamps `lastTransaction`, leaving limits and reset dates untouched; a
subsequent `getTracking` read reflects each increment exactly once, and
reading never changes the state. -/
theorem recordSpend_increments (st : SpendLimitState) (amount now : Int)
    (subAccountId : Option String) :
    ((getTracking (recordSpend st amount now subAccountId)).1.daily.amount =
      (getTracking st).1.daily.amount + amount) ∧
    ((getTracking (recordSpend st amount now subAccountId)).1.monthly.amount =
      (getTracking st).1.monthly.amount + amount) ∧
    ((getTracking (recordSpend st amount now subAccountId)).1.totalTransactions =
      (getTracking st).1.totalTransactions + 1) ∧
    ((getTracking (recordSpend st amount now subAccountId)).1.lastTransaction =
      some { amount := amount, timestamp := now, subAccountId := subAccountId }) ∧
    ((getTracking (recordSpend st amount now subAccountId)).1.daily.limit =
      (getTracking st).1.daily.limit) ∧
    ((getTracking (recordSpend st amount now subAccountId)).1.daily.resetDate =
      (getTracking st).1.daily.resetDate) ∧
    ((getTracking (recordSpend st amount now subAccountId)).1.monthly.limit =
      (getTracking st).1.monthly.limit) ∧
    ((getTracking (recordSpend st amount now subAccountId)).1.monthly.resetDate =
      (getTracking st).1.monthly.resetDate) ∧
    ((getTracking (recordSpend st amount now subAccountId)).2 =
      recordSpend st amount now subAccountId) ∧
    (getTracking ((getTracking (recordSpend st amount now subAccountId)).2)).1 =
      (getTracking (recordSpend st amount now subAccountId)).1 := by
  exact ⟨rfl, rfl, rfl, rfl, rfl, rfl, rfl, rfl, rfl, rfl⟩

end SpendLimit

namespace PermissionLedger

/-- Rewriting the first match of a predicate keeps it the first match,
provided the rewrite preserves the predicate. -/
theorem find?_updateFirst {α : Type} (p : α → Bool) (f : α → α) (l : List α) (a : α)
    (hfind : l.find? p = some a) (hfa : p (f a) = true) :
    (updateFirst p f l).find? p = some (f a) := by
  induction l with
  | nil => simp at hfind
  | cons x xs ih =>
    by_cases hx : p x
    · rw [List.find?_cons_of_pos _ hx] at hfind
      obtain rfl : x = a := by injection hfind
      simp [updateFirst, hx, hfa]
    · rw [List.find?_cons_of_neg _ hx] at hfind
      simp [updateFirst, hx, ih hfind]

/-- Every status may transition to itself. -/
theorem statusTransitionOKb_refl (s : RequestStatus) : statusTransitionOKb s s = true := by
  cases s <;> rfl

/-- A step that touches nothing conforms to the lifecycle. -/
theorem evolutionOKb_refl (l : List RequestStatus) : evolutionOKb l l = true := by
  induction l with
  | nil => rfl
  | cons s rest ih => simp [evolutionOKb, statusTransitionOKb_refl, ih]

/-- Rewriting the first match of a predicate conforms to the lifecycle
when the rewrite of that very element is a legal transition. -/
theorem evolutionOKb_updateFirst (p : PermissionRequest → Bool)
    (f : PermissionRequest → PermissionRequest) (l : List PermissionRequest)
    (a : PermissionRequest) (hfind : l.find? p = some a)
    (ha : statusTransitionOKb a.status (f a).status = true) :
    evolutionOKb (l.map PermissionRequest.status)
      ((updateFirst p f l).map PermissionRequest.status) = true := by
  induction l with
  | nil => simp at hfind
  | cons x xs ih =>
    by_cases hx : p x
    · rw [List.find?_cons_of_pos _ hx] at hfind
      obtain rfl : x = a := by injection hfind
      simp [updateFirst, hx, evolutionOKb, ha, evolutionOKb_refl]
    · rw [List.find?_cons_of_neg _ hx] at hfind
      simp [updateFirst, hx, evolutionOKb, statusTransitionOKb_refl, ih hfind]

/-- Mapping a pointwise legal transition over the whole ledger conforms
to the lifecycle. -/
theorem evolutionOKb_map (g : PermissionRequest → PermissionRequest)
    (hg : ∀ r, statusTransitionOKb r.status (g r).status = true)
    (l : List PermissionRequest) :
    evolutionOKb (l.map PermissionRequest.status)
      ((l.map g).map PermissionRequest.status) = true := by
  induction l with
  | nil => rfl
  | cons x xs ih =>
    simp only [List.map_cons, evolutionOKb, Bool.and_eq_true]
    exact ⟨hg x, ih⟩

/-- Appending one request that starts in `pending` or `approved`
conforms to the lifecycle. -/
theorem evolutionOKb_append_one (l : List PermissionRequest) (r : PermissionRequest)
    (hr : (r.status == RequestStatus.pending || r.status == RequestStatus.approved) = true) :
    evolutionOKb (l.map PermissionRequest.status)
      ((l ++ [r]).map PermissionRequest.status) = true := by
  induction l with
  | nil => simp [evolutionOKb, hr]
  | cons x xs ih =>
    simp only [List.cons_append, List.map_cons, evolutionOKb, Bool.and_eq_true]
    exact ⟨statusTransitionOKb_refl x.status, ih⟩

/-- Claim C2 is false on the code: with `blockedRecipients = ["0xBAD"]`
— an entry equal to the recipient `"0xBAD"` even in the same case —
`requestPermission` succeeds and stores a request, because the source
lowercases only the recipient before the `includes` test and the
upper-case list entry never equals a lowercased string. -/
theorem requestPermission_blocklist_case_counterexample :
    (requestPermission blockedUpperConfig [] "sub1" 5 "0xBAD" "gift" 0 "req1").1.success
      = true ∧
    (requestPermission blockedUpperConfig [] "sub1" 5 "0xBAD" "gift" 0 "req1").1.error
      = none ∧
    (requestPermission blockedUpperConfig [] "sub1" 5 "0xBAD" "gift" 0 "req1").2.length
      = 1 := by
  decide

/-- Claim C2 (amended): `requestPermission` lowercases the recipient
address and tests verbatim membership of that lowercased string in
`blockedRecipients` (and, when the allow-list is non-empty, in
`allowedRecipients`); a list entry therefore matches case-insensitively
in the recipient only when the entry itself is stored in lower case.
When the lowercased recipient is a `blockedRecipients` entry the call
fails with the recipient-blocked error and stores nothing, and when the
allow-list is non-empty and misses the lowercased recipient the call
fails with the not-allowed error and stores nothing. -/
theorem requestPermission_blocklist_lowercase_matching
    (config : PermissionApprovalConfig) (requests : List PermissionRequest)
    (subAccountId : String) (amount : Int) (recipientAddress purpose : String)
    (now : Int) (newId : String) :
    (config.blockedRecipients.contains (toLower recipientAddress) = true →
      requestPermission config requests subAccountId amount recipientAddress purpose
          now newId =
        ({ success := false, requestId := none, autoApproved := none
           error := some RequestError.recipientBlocked }, requests)) ∧
    (config.blockedRecipients.contains (toLower recipientAddress) = false →
      0 < config.allowedRecipients.length →
      config.allowedRecipients.contains (toLower recipientAddress) = false →
      requestPermission config requests subAccountId amount recipientAddress purpose
          now newId =
        ({ success := false, requestId := none, autoApproved := none
           error := some RequestError.recipientNotAllowed }, requests)) := by
  constructor
  · intro h
    simp only [requestPermission]
    rw [if_pos h]
  · intro h1 h2 h3
    simp only [requestPermission]
    rw [if_neg (by simp only [h1]; exact Bool.false_ne_true),
      if_pos ⟨h2, by simp only [h3]; exact Bool.false_ne_true⟩]

/-- Claim C2 witness: a lower-case block-list entry blocks the
mixed-case recipient `"0xBAD"`, and a non-empty allow-list without the
lowercased recipient rejects it; neither call stores a request. -/
theorem requestPermission_blocklist_lowercase_matching_witness :
    requestPermission { getDefaultApprovalConfig with blockedRecipients := ["0xbad"] }
        [] "sub1" 5 "0xBAD" "gift" 0 "req1" =
      ({ success := false, requestId := none, autoApproved := none
         error := some RequestError.recipientBlocked }, []) ∧
    requestPermission { getDefaultApprovalConfig with allowedRecipients := ["0xok"] }
        [] "sub1" 5 "0xBAD" "gift" 0 "req1" =
      ({ success := false, requestId := none, autoApproved := none
         error := some RequestError.recipientNotAllowed }, []) :=
  ⟨(requestPermission_blocklist_lowercase_matching
      { getDefaultApprovalConfig with blockedRecipients := ["0xbad"] }
      [] "sub1" 5 "0xBAD" "gift" 0 "req1").1 (by decide),
   (requestPermission_blocklist_lowercase_matching
      { getDefaultApprovalConfig with allowedRecipients := ["0xok"] }
      [] "sub1" 5 "0xBAD" "gift" 0 "req1").2 (by decide) (by decide) (by decide)⟩

/-- Claim C5: at or below `autoApproveThreshold` the Ledger's `canSpend`
immediately allows with `requiresApproval = false`; and
`requestPermission`, whenever its recipient and pending-count
validations pass, auto-approves — it succeeds with
`autoApproved = true` and appends a request whose status is `approved`,
stamped `approvedAt = now` and `approvedBy = "system"`. -/
theorem ledger_auto_approval_below_threshold (config : PermissionApprovalConfig)
    (requests : List PermissionRequest) (subAccountId : String) (amount : Int)
    (recipientAddress purpose : String) (now : Int) (newId : String) :
    (amount ≤ config.autoApproveThreshold →
      ledgerCanSpend config requests subAccountId amount recipientAddress now =
        { allowed := true, reason := none, requiresApproval := false
          pendingRequestId := none }) ∧
    (amount ≤ config.autoApproveThreshold →
      config.blockedRecipients.contains (toLower recipientAddress) = false →
      ¬ (0 < config.allowedRecipients.length ∧
          ¬ config.allowedRecipients.contains (toLower recipientAddress)) →
      (getPendingRequests requests now).length < config.maxPendingRequests →
      requestPermission config requests subAccountId amount recipientAddress purpose
          now newId =
        ({ success := true, requestId := some newId, autoApproved := some true
           error := none },
         requests ++
          [{ id := newId
             subAccountId := subAccountId
             amount := amount
             recipientAddress := recipientAddress
             purpose := purpose
             requestedAt := now
             status := RequestStatus.approved
             approvedAt := some now
             rejectedAt := none
             approvedBy := some "system"
             rejectionReason := none
             expiresAt := now + config.requestExpiryHours * 60 * 60 * 1000 }])) := by
  constructor
  · intro h
    simp only [ledgerCanSpend]
    rw [if_pos h]
  · intro h1 h2 h3 h4
    simp only [requestPermission]
    rw [if_neg (by simp only [h2]; exact Bool.false_ne_true), if_neg h3,
      if_neg (by omega)]
    simp [decide_eq_true h1]

/-- Claim C5 witness (Scenario C): with the default configuration
(threshold 5) and an empty ledger, amount 3 to `"0xabc"` is allowed
outright by `canSpend`, and `requestPermission` stores an immediately
approved request stamped by `"system"`. -/
theorem ledger_auto_approval_below_threshold_witness :
    ledgerCanSpend getDefaultApprovalConfig [] "sub1" 3 "0xabc" 0 =
      { allowed := true, reason := none, requiresApproval := false
        pendingRequestId := none } ∧
    requestPermission getDefaultApprovalConfig [] "sub1" 3 "0xabc" "tip" 0 "req1" =
      ({ success := true, requestId := some "req1", autoApproved := some true
         error := none },
       [{ id := "req1"
          subAccountId := "sub1"
          amount := 3
          recipientAddress := "0xabc"
          purpose := "tip"
          requestedAt := 0
          status := RequestStatus.approved
          approvedAt := some 0
          rejectedAt := none
          approvedBy := some "system"
          rejectionReason := none
          expiresAt := 86400000 }]) :=
  ⟨(ledger_auto_approval_below_threshold getDefaultApprovalConfig [] "sub1" 3 "0xabc"
      "tip" 0 "req1").1 (by decide),
   (ledger_auto_approval_below_threshold getDefaultApprovalConfig [] "sub1" 3 "0xabc"
      "tip" 0 "req1").2 (by decide) (by decide) (by decide) (by decide)⟩

/-- Claim C6: `approveRequest` on a `pending` request whose `expiresAt`
has passed fails with the expiry error and flips the stored request to
`expired` instead of approving it; on a missing id or a non-pending
request it fails leaving the request array untouched. -/
theorem approveRequest_expiry_transition (requests : List PermissionRequest)
    (requestId approvedBy : String) (now : Int) :
    (getRequestById requests requestId = none →
      approveRequest requests requestId approvedBy now =
        ({ success := false, error := some DecisionError.requestNotFound },
         requests)) ∧
    (∀ request, getRequestById requests requestId = some request →
      request.status ≠ RequestStatus.pending →
      approveRequest requests requestId approvedBy now =
        ({ success := false, error := some DecisionError.requestNotPending },
         requests)) ∧
    (∀ request, getRequestById requests requestId = some request →
      request.status = RequestStatus.pending →
      request.expiresAt ≤ now →
      (approveRequest requests requestId approvedBy now).1 =
        { success := false, error := some DecisionError.requestHasExpired } ∧
      getRequestById (approveRequest requests requestId approvedBy now).2 requestId =
        some { request with status := RequestStatus.expired }) := by
  refine ⟨?_, ?_, ?_⟩
  · intro h
    simp [approveRequest, h]
  · intro request h hs
    simp [approveRequest, h, hs]
  · intro request h hs he
    have hne : ¬ request.status ≠ RequestStatus.pending := not_not.mpr hs
    constructor
    · simp [approveRequest, h, hne, he]
    · simp only [approveRequest, h]
      rw [if_neg hne, if_pos he]
      have hfind2 : List.find? (fun req : PermissionRequest => req.id == requestId)
          requests = some request := h
      have hp : (({ request with status := RequestStatus.expired } :
          PermissionRequest).id == requestId) = true :=
        @List.find?_some PermissionRequest
          (fun req : PermissionRequest => req.id == requestId) request requests hfind2
      exact find?_updateFirst (fun req => req.id == requestId)
        (fun req => { req with status := RequestStatus.expired }) requests request
        hfind2 hp

/-- Claim C6 witness (Scenario E): approving the concrete expired
pending request fails with the expiry error and its stored status
becomes `expired`; approving a missing id fails changing nothing. -/
theorem approveRequest_expiry_transition_witness :
    ((approveRequest [pendingExpiredRequest] "req1" "admin" 20).1 =
      { success := false, error := some DecisionError.requestHasExpired } ∧
    getRequestById (approveRequest [pendingExpiredRequest] "req1" "admin" 20).2 "req1" =
      some { pendingExpiredRequest with status := RequestStatus.expired }) ∧
    approveRequest [] "missing" "admin" 0 =
      ({ success := false, error := some DecisionError.requestNotFound }, []) :=
  ⟨(approveRequest_expiry_transition [pendingExpiredRequest] "req1" "admin" 20).2.2
      pendingExpiredRequest (by decide) (by decide) (by decide),
   (approveRequest_expiry_transition [] "missing" "admin" 0).1 (by decide)⟩

/-- Claim C8: every operation of the ledger conforms to the lifecycle —
positions already present either keep their status or move from
`pending` to one of `approved` / `rejected` / `expired`, no request is
deleted, and the one request `requestPermission` may append starts in
`pending` or `approved`; in particular a request in a terminal status
is never changed by any of the four operations. -/
theorem request_status_lifecycle (config : PermissionApprovalConfig)
    (requests : List PermissionRequest) (subAccountId : String) (amount : Int)
    (recipientAddress purpose : String) (now : Int)
    (newId requestId approver rejecter reason : String) :
    evolutionOKb (requests.map PermissionRequest.status)
      (((requestPermission config requests subAccountId amount recipientAddress
          purpose now newId).2).map PermissionRequest.status) = true ∧
    evolutionOKb (requests.map PermissionRequest.status)
      (((approveRequest requests requestId approver now).2).map
        PermissionRequest.status) = true ∧
    evolutionOKb (requests.map PermissionRequest.status)
      (((rejectRequest requests requestId rejecter reason now).2).map
        PermissionRequest.status) = true ∧
    evolutionOKb (requests.map PermissionRequest.status)
      ((cleanupExpiredRequests requests now).map PermissionRequest.status) = true := by
  refine ⟨?_, ?_, ?_, ?_⟩
  · simp only [requestPermission]
    split_ifs with h1 h2 h3 h4
    · exact evolutionOKb_refl _
    · exact evolutionOKb_refl _
    · exact evolutionOKb_refl _
    · exact evolutionOKb_append_one requests _ rfl
    · exact evolutionOKb_append_one requests _ rfl
  · rcases hfind : getRequestById requests requestId with _ | request
    · simp only [approveRequest, hfind]
      exact evolutionOKb_refl _
    · simp only [approveRequest, hfind]
      split_ifs with h1 h2
      · exact evolutionOKb_refl _
      · refine evolutionOKb_updateFirst _ _ requests request hfind ?_
        have hp : request.status = RequestStatus.pending := not_not.mp h1
        simp [hp, statusTransitionOKb]
      · refine evolutionOKb_updateFirst _ _ requests request hfind ?_
        have hp : request.status = RequestStatus.pending := not_not.mp h1
        simp [hp, statusTransitionOKb]
  · rcases hfind : getRequestById requests requestId with _ | request
    · simp only [rejectRequest, hfind]
      exact evolutionOKb_refl _
    · simp only [rejectRequest, hfind]
      split_ifs with h1
      · exact evolutionOKb_refl _
      · refine evolutionOKb_updateFirst _ _ requests request hfind ?_
        have hp : request.status = RequestStatus.pending := not_not.mp h1
        simp [hp, statusTransitionOKb]
  · refine evolutionOKb_map (expireIfDue now) ?_ requests
    intro r
    by_cases hc : r.status = RequestStatus.pending ∧ r.expiresAt ≤ now
    · simp [expireIfDue, hc, hc.1, statusTransitionOKb]
    · simp [expireIfDue, hc, statusTransitionOKb_refl]

/-- Claim C9: `cleanupExpiredRequests` flips exactly the `pending`
requests whose `expiresAt` has passed to `expired` — every request is
rewritten elementwise by `expireIfDue`, which expires a due pending
request and leaves any other request unchanged — and at a fixed time it
is idempotent: a second run returns the result of the first
unchanged. -/
theorem cleanup_idempotent_pointwise (requests : List PermissionRequest) (now : Int) :
    cleanupExpiredRequests (cleanupExpiredRequests requests now) now =
      cleanupExpiredRequests requests now ∧
    (∀ i : Nat, (cleanupExpiredRequests requests now)[i]? =
      (requests[i]?).map (expireIfDue now)) ∧
    (∀ req : PermissionRequest,
      req.status = RequestStatus.pending → req.expiresAt ≤ now →
      expireIfDue now req = { req with status := RequestStatus.expired }) ∧
    (∀ req : PermissionRequest,
      ¬ (req.status = RequestStatus.pending ∧ req.expiresAt ≤ now) →
      expireIfDue now req = req) := by
  have hstep : ∀ r, expireIfDue now (expireIfDue now r) = expireIfDue now r := by
    intro r
    by_cases hc : r.status = RequestStatus.pending ∧ r.expiresAt ≤ now
    · simp [expireIfDue, hc]
    · simp [expireIfDue, hc]
  refine ⟨?_, ?_, ?_, ?_⟩
  · simp only [cleanupExpiredRequests]
    induction requests with
    | nil => rfl
    | cons x xs ih => simp [hstep, ih]
  · intro i
    simp [cleanupExpiredRequests]
  · intro req hp he
    simp only [expireIfDue]
    rw [if_pos ⟨hp, he⟩]
  · intro req hc
    simp only [expireIfDue]
    rw [if_neg hc]

/-- Claim C9 witness: on the concrete ledger holding one due pending
request, running the cleanup twice at time 40 equals running it once;
the due request is expired by the elementwise step, and at the earlier
time 20 (before its expiry) the same request is left unchanged. -/
theorem cleanup_idempotent_pointwise_witness :
    cleanupExpiredRequests (cleanupExpiredRequests [duePendingRequest] 40) 40 =
      cleanupExpiredRequests [duePendingRequest] 40 ∧
    expireIfDue 40 duePendingRequest =
      { duePendingRequest with status := RequestStatus.expired } ∧
    expireIfDue 20 duePendingRequest = duePendingRequest :=
  ⟨(cleanup_idempotent_pointwise [duePendingRequest] 40).1,
   (cleanup_idempotent_pointwise [duePendingRequest] 40).2.2.1 duePendingRequest
     (by decide) (by decide),
   (cleanup_idempotent_pointwise [duePendingRequest] 20).2.2.2 duePendingRequest
     (by decide)⟩

/-- Claim C10: `rejectRequest` performs no expiry check — any `pending`
request, even one whose `expiresAt` already lies in the past, is
rejected with success: its stored status becomes `rejected` (never
`expired`), `rejectedAt` and `rejectionReason` are stamped, and the
rejector's identity lands in the `approvedBy` field. -/
theorem rejectRequest_ignores_expiry (requests : List PermissionRequest)
    (requestId rejectedBy reason : String) (now : Int) (request : PermissionRequest)
    (hfind : getRequestById requests requestId = some request)
    (hpending : request.status = RequestStatus.pending) :
    (rejectRequest requests requestId rejectedBy reason now).1 =
      { success := true, error := none } ∧
    getRequestById (rejectRequest requests requestId rejectedBy reason now).2
        requestId =
      some { request with
        status := RequestStatus.rejected
        rejectedAt := some now
        approvedBy := some rejectedBy
        rejectionReason := some reason } := by
  have hne : ¬ request.status ≠ RequestStatus.pending := not_not.mpr hpending
  constructor
  · simp [rejectRequest, hfind, hne]
  · simp only [rejectRequest, hfind]
    rw [if_neg hne]
    have hfind2 : List.find? (fun req : PermissionRequest => req.id == requestId)
        requests = some request := hfind
    have hp : (({ request with
        status := RequestStatus.rejected
        rejectedAt := some now
        approvedBy := some rejectedBy
        rejectionReason := some reason } : PermissionRequest).id == requestId) = true :=
      @List.find?_some PermissionRequest
        (fun req : PermissionRequest => req.id == requestId) request requests hfind2
    exact find?_updateFirst (fun req => req.id == requestId)
      (fun req =>
        { req with
          status := RequestStatus.rejected
          rejectedAt := some now
          approvedBy := some rejectedBy
          rejectionReason := some reason }) requests request hfind2 hp

/-- Claim C10 witness: the concrete pending request is already past its
`expiresAt` (50 ≤ 60), yet `rejectRequest` succeeds and stores it as
`rejected` with the rejector recorded in `approvedBy`. -/
theorem rejectRequest_ignores_expiry_witness :
    overduePendingRequest.expiresAt ≤ 60 ∧
    (rejectRequest [overduePendingRequest] "req3" "admin" "duplicate" 60).1 =
      { success := true, error := none } ∧
    getRequestById
        (rejectRequest [overduePendingRequest] "req3" "admin" "duplicate" 60).2
        "req3" =
      some { overduePendingRequest with
        status := RequestStatus.rejected
        rejectedAt := some 60
        approvedBy := some "admin"
        rejectionReason := some "duplicate" } :=
  ⟨by decide,
   (rejectRequest_ignores_expiry [overduePendingRequest] "req3" "admin" "duplicate" 60
     overduePendingRequest (by decide) (by decide)).1,
   (rejectRequest_ignores_expiry [overduePendingRequest] "req3" "admin" "duplicate" 60
     overduePendingRequest (by decide) (by decide)).2⟩

end PermissionLedger

namespace AutoSpend

/-- Claim C4: `canAutoSpend` returns true exactly when all four gates
pass — a stored and enabled configuration with an active sub-account,
the amount within the sub-account's remaining daily allowance
(`dailySpendLimit − totalSpentToday`), no approval requirement
triggered, and the amount within the global `maxAmount` ceiling — and
in Scenario D (daily cap 20 with 18 spent) an amount of 5 is
refused. -/
theorem canAutoSpend_gates (config : Option AutoSpendConfig) (amount : Int)
    (subAccount : SubAccount) :
    (canAutoSpend config amount subAccount = true ↔
      ∃ cfg, config = some cfg ∧ cfg.enabled = true ∧ subAccount.isActive = true ∧
        amount ≤ subAccount.dailySpendLimit - subAccount.totalSpentToday ∧
        ¬ (cfg.requiresApproval = true ∧ cfg.approvalThreshold < amount) ∧
        amount ≤ cfg.maxAmount) ∧
    canAutoSpend (some scenarioConfig) 5 scenarioSubAccount = false := by
  refine ⟨?_, by decide⟩
  cases config with
  | none => simp [canAutoSpend]
  | some cfg =>
    simp only [canAutoSpend]
    constructor
    · intro h
      split_ifs at h with h1 h2 h3 h4
      push_neg at h1
      exact ⟨cfg, rfl, h1.1, h1.2, not_lt.mp h2, h3, not_lt.mp h4⟩
    · rintro ⟨cfg2, hcfg, he, ha, hr, hna, hm⟩
      obtain rfl : cfg = cfg2 := Option.some.inj hcfg
      rw [if_neg (by simp [he, ha]), if_neg (not_lt.mpr hr), if_neg hna,
        if_neg (not_lt.mpr hm)]

/-- Claim C4 witness: with the same enabled configuration and active
sub-account, an amount of 2 — within the remaining headroom of 2 and
every other gate — is allowed. -/
theorem canAutoSpend_gates_witness :
    canAutoSpend (some scenarioConfig) 2 scenarioSubAccount = true :=
  (canAutoSpend_gates (some scenarioConfig) 2 scenarioSubAccount).1.mpr
    ⟨scenarioConfig, rfl, by decide, by decide, by decide, by decide, by decide⟩

end AutoSpend
